import Mathlib

/-!
Verification of the SPF_CabinWalk animation core against its specification.

The development shallowly embeds the animation subsystem:

* `Track` / `Keyframe` / `Track.Evaluate` from `Animation/Track.hpp`
  (keyframed interpolation curves for one scalar channel);
* `AnimationSequence` from `Animation/AnimationSequence.cpp` (the revision
  whose `Update` checks `m_is_playing` before touching any state and treats
  a missing camera API as "advance the clock but write nothing");
* the transition state machine of `AnimationController` (`Update`, `MoveTo`,
  `OnRequestMove`, the pending-move queue and path planner) and the nested
  stance machine of `StandingAnimController` (`Update`, the hold-time
  debounced crouch/tiptoe triggers, walking, and the walk-home state).

Modelling conventions: `float`/`double` values are embedded as `ℚ` (every
float literal in the source denotes a rational; no claim under study depends
on rounding), `uint64_t` times as `ℕ` (`a - b` is truncated subtraction,
matching the monotonic-clock usage), easing functions as opaque `ℚ → ℚ`
values carried inside keyframes, and the opaque camera device as an explicit
write log (`CamWrite`) so that "writes nothing to the camera" is expressible.
External collaborators (camera reads, telemetry clock, settings, keybind
state, and the sequence factories of `Sequences/*.hpp`) are supplied as a
per-call environment `Env`, universally quantified in the theorems.
-/

/-- `SPF_FVector`: a triple of scalars (both positions and yaw/pitch/roll
rotations are carried in this shape in the source). -/
structure Vec3 where
  x : ℚ
  y : ℚ
  z : ℚ
  deriving DecidableEq

/-- `Animation::CurrentCameraState`: position plus rotation
(`rotation.x` = yaw, `rotation.y` = pitch, `rotation.z` = roll). -/
structure CurrentCameraState where
  position : Vec3
  rotation : Vec3
  deriving DecidableEq

/-- `EasingFunction`: pure map from local progress to eased progress. -/
def EasingFunction : Type := ℚ → ℚ

/-- `Animation::Keyframe<float>`: a value at a progress point plus the easing
function used when interpolating into it. -/
structure Keyframe where
  progress : ℚ
  value : ℚ
  easing_function : EasingFunction

/-- `Animation::Track<float>`: an ordered list of keyframes for one channel. -/
structure Track where
  m_keyframes : List Keyframe

/-- Comparator used by `Track::AddKeyframe`'s sort (`a.progress < b.progress`
as a strict-weak order; sorting with it yields a list nondecreasing in
`progress`, which is what the nonstrict relation below expresses). -/
def keyframeLE (a b : Keyframe) : Prop := a.progress ≤ b.progress

instance : DecidableRel keyframeLE := fun a b => inferInstanceAs (Decidable (a.progress ≤ b.progress))

instance : IsTotal Keyframe keyframeLE := ⟨fun a b => le_total a.progress b.progress⟩

instance : IsTrans Keyframe keyframeLE := ⟨fun _ _ _ h h' => le_trans h h'⟩

/-- The keyframe list of a track is nondecreasing in `progress`. -/
def ProgressSorted (l : List Keyframe) : Prop := List.Sorted keyframeLE l

instance (l : List Keyframe) : Decidable (ProgressSorted l) :=
  inferInstanceAs (Decidable (List.Pairwise _ l))

/-- `Track::AddKeyframe`: push the keyframe, then sort the whole vector by
`progress` (`std::sort` with the `progress` comparator). -/
def Track.AddKeyframe (t : Track) (keyframe : Keyframe) : Track :=
  ⟨List.insertionSort keyframeLE (t.m_keyframes ++ [keyframe])⟩

/-- `Track::IsEmpty`. -/
def Track.IsEmpty (t : Track) : Bool := t.m_keyframes.isEmpty

/-- `Track::lerp` (the `float` specialization): `a + (b - a) * t`. -/
def lerp (a b t : ℚ) : ℚ := a + (b - a) * t

/-- The per-segment interpolation step at the end of `Track::Evaluate`: the
zero-width guard (`duration_between_keyframes == 0.0f` returns the start
keyframe's value), then local progress, easing, and linear interpolation. -/
def interpSegment (start_kf end_kf : Keyframe) (current_progress : ℚ) : ℚ :=
  let duration_between_keyframes := end_kf.progress - start_kf.progress
  if duration_between_keyframes = 0 then start_kf.value
  else
    let local_progress := (current_progress - start_kf.progress) / duration_between_keyframes
    let eased_progress := end_kf.easing_function local_progress
    lerp start_kf.value end_kf.value eased_progress

/-- Division that makes a division fault observable: `none` when the
denominator is zero. -/
def checkedDiv (a b : ℚ) : Option ℚ := if b = 0 then none else some (a / b)

/-- `interpSegment` with the local-progress division routed through
`checkedDiv`, so that reaching the division with a zero denominator would
surface as `none`. -/
def interpSegmentChecked (start_kf end_kf : Keyframe) (current_progress : ℚ) : Option ℚ :=
  let duration_between_keyframes := end_kf.progress - start_kf.progress
  if duration_between_keyframes = 0 then some start_kf.value
  else
    (checkedDiv (current_progress - start_kf.progress) duration_between_keyframes).map
      (fun local_progress => lerp start_kf.value end_kf.value (end_kf.easing_function local_progress))

/-- `std::upper_bound` step of `Track::Evaluate`: the first keyframe whose
`progress` is strictly greater than the input, paired with its predecessor
(`it_start = std::prev(it_end)`). -/
def findBracket (current_progress : ℚ) : Keyframe → List Keyframe → Option (Keyframe × Keyframe)
  | _prev, [] => none
  | prev, k :: rest =>
    if current_progress < k.progress then some (prev, k)
    else findBracket current_progress k rest

/-- `Track::Evaluate(current_progress, default_value)`: default on an empty
track, clamp to the first keyframe's value before its progress and to the
last keyframe's value after its progress, otherwise interpolate inside the
bracketing segment. (The `none` bracket case is unreachable: past the clamps
the input is strictly below the last keyframe's progress, so a bracket
exists; the last value is used as the formal fallback.) -/
def Track.Evaluate (t : Track) (current_progress default_value : ℚ) : ℚ :=
  match t.m_keyframes with
  | [] => default_value
  | k :: rest =>
    if current_progress ≤ k.progress then k.value
    else
      let last := (k :: rest).getLast (List.cons_ne_nil k rest)
      if last.progress ≤ current_progress then last.value
      else
        match findBracket current_progress k rest with
        | some (s_kf, e_kf) => interpSegment s_kf e_kf current_progress
        | none => last.value

/-- `Track.Evaluate` with the division made observable (`interpSegmentChecked`):
`none` would mean a division fault was reached. -/
def Track.EvaluateChecked (t : Track) (current_progress default_value : ℚ) : Option ℚ :=
  match t.m_keyframes with
  | [] => some default_value
  | k :: rest =>
    if current_progress ≤ k.progress then some k.value
    else
      let last := (k :: rest).getLast (List.cons_ne_nil k rest)
      if last.progress ≤ current_progress then some last.value
      else
        match findBracket current_progress k rest with
        | some (s_kf, e_kf) => interpSegmentChecked s_kf e_kf current_progress
        | none => some last.value

/-- One call into the opaque camera device made by `AnimationSequence::Update`:
`SetInteriorSeatPos(x, y, z)` or `SetInteriorHeadRot(yaw, pitch)` (roll is
evaluated in the source but never written to the device). -/
inductive CamWrite where
  | setInteriorSeatPos (x y z : ℚ)
  | setInteriorHeadRot (yaw pitch : ℚ)
  deriving DecidableEq

/-- The camera device's settable state: interior seat position and head
yaw/pitch. -/
structure CameraDevice where
  x : ℚ
  y : ℚ
  z : ℚ
  yaw : ℚ
  pitch : ℚ
  deriving DecidableEq

/-- Effect of one camera write on the device. -/
def applyWrite (d : CameraDevice) : CamWrite → CameraDevice
  | .setInteriorSeatPos a b c => { d with x := a, y := b, z := c }
  | .setInteriorHeadRot a b => { d with yaw := a, pitch := b }

/-- Effect of a write log on the device, in order. -/
def applyWrites (d : CameraDevice) (ws : List CamWrite) : CameraDevice :=
  ws.foldl applyWrite d

/-- `Animation::AnimationSequence`: six per-channel tracks over one duration,
an elapsed-time counter, the playing flag, and the initial camera state
captured at `Start`. -/
structure AnimationSequence where
  m_duration_ms : ℕ
  m_is_playing : Bool
  m_current_elapsed_time_ms : ℕ
  m_position_x_track : Track
  m_position_y_track : Track
  m_position_z_track : Track
  m_rotation_yaw_track : Track
  m_rotation_pitch_track : Track
  m_rotation_roll_track : Track
  m_initial_camera_state : CurrentCameraState

/-- `AnimationSequence::Start(initial_state)`: capture the initial state,
reset the clock, flip playing on. -/
def AnimationSequence.Start (s : AnimationSequence) (initial_state : CurrentCameraState) :
    AnimationSequence :=
  { s with
    m_initial_camera_state := initial_state
    m_current_elapsed_time_ms := 0
    m_is_playing := true }

/-- `AnimationSequence::IsPlaying`. -/
def AnimationSequence.IsPlaying (s : AnimationSequence) : Bool := s.m_is_playing

/-- Channel evaluation inside `AnimationSequence::Update`: a channel with a
track overrides the initial state's component, an absent (empty) track keeps
the initial component. -/
def trackOrInitial (t : Track) (progress initial : ℚ) : ℚ :=
  if t.IsEmpty then initial else t.Evaluate progress initial

/-- `AnimationSequence::Update(delta_time_ms, camera_api)` (the revision at
`Animation/AnimationSequence.cpp:34-99`). Returns the updated sequence, the
returned `bool` (still playing), and the log of camera writes performed.
`camera_present` models `camera_api != nullptr`: when absent, the clock still
advances but nothing is written. -/
def AnimationSequence.Update (s : AnimationSequence) (delta_time_ms : ℕ)
    (camera_present : Bool) : AnimationSequence × Bool × List CamWrite :=
  if s.m_is_playing = false then (s, false, [])
  else
    let e0 := s.m_current_elapsed_time_ms + delta_time_ms
    let elapsed := if s.m_duration_ms ≤ e0 then s.m_duration_ms else e0
    let playing := if s.m_duration_ms ≤ e0 then false else true
    let s' := { s with m_current_elapsed_time_ms := elapsed, m_is_playing := playing }
    if camera_present = false then (s', playing, [])
    else
      let current_progress : ℚ :=
        if s.m_duration_ms = 0 then 1 else (elapsed : ℚ) / (s.m_duration_ms : ℚ)
      let final_pos_x := trackOrInitial s.m_position_x_track current_progress
        s.m_initial_camera_state.position.x
      let final_pos_y := trackOrInitial s.m_position_y_track current_progress
        s.m_initial_camera_state.position.y
      let final_pos_z := trackOrInitial s.m_position_z_track current_progress
        s.m_initial_camera_state.position.z
      let final_rot_yaw := trackOrInitial s.m_rotation_yaw_track current_progress
        s.m_initial_camera_state.rotation.x
      let final_rot_pitch := trackOrInitial s.m_rotation_pitch_track current_progress
        s.m_initial_camera_state.rotation.y
      (s', playing,
        [CamWrite.setInteriorSeatPos final_pos_x final_pos_y final_pos_z,
         CamWrite.setInteriorHeadRot final_rot_yaw final_rot_pitch])

/-- A run of `Update` calls with the camera present, collecting the write log. -/
def runUpdates : AnimationSequence → List ℕ → AnimationSequence × List CamWrite
  | s, [] => (s, [])
  | s, d :: ds =>
    let u := s.Update d true
    let r := runUpdates u.1 ds
    (r.1, u.2.2 ++ r.2)

/-- The pose a completed sequence applies: each present track evaluated at
progress 1.0, absent channels falling back to the initial state captured at
`Start`. -/
def sequenceTargetDevice (s : AnimationSequence) : CameraDevice :=
  { x := trackOrInitial s.m_position_x_track 1 s.m_initial_camera_state.position.x
    y := trackOrInitial s.m_position_y_track 1 s.m_initial_camera_state.position.y
    z := trackOrInitial s.m_position_z_track 1 s.m_initial_camera_state.position.z
    yaw := trackOrInitial s.m_rotation_yaw_track 1 s.m_initial_camera_state.rotation.x
    pitch := trackOrInitial s.m_rotation_pitch_track 1 s.m_initial_camera_state.rotation.y }

/-- `AnimationController::CameraPosition` (`AnimationController.hpp`). -/
inductive CameraPosition where
  | Driver
  | Passenger
  | Standing
  | Bed
  | SofaSit1
  | SofaLie
  | SofaSit2
  | None
  deriving DecidableEq, Fintype

/-- `AnimationController::GazeDirection`. -/
inductive GazeDirection where
  | Forward
  | Backward
  | Left
  | Right
  deriving DecidableEq

/-- `StandingAnimController::Stance` (`StandingAnimController.hpp`; the
walk-home state is named `ReturningToHome` in the superseded source revision
and `WalkingToFinalDestination` in the current header — same state). -/
inductive Stance where
  | Standing
  | Crouching
  | Tiptoes
  | InTransition
  | WalkingToFinalDestination
  deriving DecidableEq

/-- `Animation::Config::Stances::Triggers::CROUCH_DOWN_ANGLE` (radians). -/
def CROUCH_DOWN_ANGLE : ℚ := -(7/10)

/-- `Animation::Config::Stances::Triggers::STAND_UP_ANGLE`. -/
def STAND_UP_ANGLE : ℚ := 3/10

/-- `Animation::Config::Stances::Triggers::TIPTOE_UP_ANGLE`. -/
def TIPTOE_UP_ANGLE : ℚ := 5/10

/-- `Animation::Config::Stances::Triggers::STAND_DOWN_ANGLE`. -/
def STAND_DOWN_ANGLE : ℚ := -(3/10)

/-- `Animation::Config::Stances::Triggers::HOLD_TIME_MS`. -/
def HOLD_TIME_MS : ℕ := 1000000

/-- `Animation::Config::Walking::STEP_AMOUNT`. -/
def STEP_AMOUNT : ℚ := 35/100

/-- `Animation::Config::Walking::MIN_Z`. -/
def MIN_Z : ℚ := -(55/100)

/-- `Animation::Config::Walking::MAX_Z`. -/
def MAX_Z : ℚ := 65/100

/-- The rational denoted by the source's `M_PI` literal (used only to bucket
yaw into gaze sectors and to pick the walk direction). -/
def piQ : ℚ := 3141592653589793 / 1000000000000000

/-- `Animation::Transform`: a settings-authored position/rotation pair. -/
structure Transform where
  position : Vec3
  rotation : Vec3
  deriving DecidableEq

/-- The settings store's authored poses (`g_anim_ctx->settings.positions`). -/
structure SettingsPositions where
  passenger_seat : Transform
  standing : Transform
  sofa_sit1 : Transform
  sofa_lie : Transform
  sofa_sit2 : Transform

/-- The combined mutable module state of `AnimationController` and
`StandingAnimController` (all the file-static variables of
`src/unnamed/part_006` and `Animation/StandingAnimController.cpp`). -/
structure State where
  /-- `g_active_sequence` (major-transition layer). -/
  active : Option AnimationSequence
  /-- `g_current_pos`. -/
  current : CameraPosition
  /-- `g_target_pos`. -/
  target : CameraPosition
  /-- `g_cached_driver_state`. -/
  cachedDriver : CurrentCameraState
  /-- `last_simulation_time` of the controller. -/
  lastSim : ℕ
  /-- `g_pending_moves` (front of the list is the front of the queue). -/
  pending : List CameraPosition
  /-- `g_settings_dirty`. -/
  settingsDirty : Bool
  /-- `g_current_stance`. -/
  stance : Stance
  /-- `g_final_destination` (stance layer). -/
  finalDest : CameraPosition
  /-- `g_transition_to_stance`. -/
  transitionTo : Stance
  /-- `g_active_sequence` of the stance layer. -/
  stanceActive : Option AnimationSequence
  /-- `last_simulation_time` of the stance layer. -/
  stanceLastSim : ℕ
  /-- `g_has_taken_first_step`. -/
  hasTakenFirstStep : Bool
  /-- `g_time_in_crouch_zone`. -/
  tCrouch : ℕ
  /-- `g_time_in_tiptoe_zone`. -/
  tTiptoe : ℕ
  /-- `g_time_in_standup_zone`. -/
  tStandup : ℕ
  /-- `g_time_in_standdown_zone`. -/
  tStanddown : ℕ

/-- Per-call environment: every external collaborator the controllers read.
Camera reads, the telemetry clock, the walk-key flag, the settings store and
the outputs of the sequence factories are all parameters; theorems quantify
over them. -/
structure Env where
  /-- `g_anim_ctx && g_anim_ctx->coreAPI` (and the stance controller's ctx). -/
  coreReady : Bool
  /-- `g_anim_ctx->cameraAPI != nullptr`. -/
  camReady : Bool
  /-- `timestamps.simulation` returned by `Tel_GetTimestamps` this call. -/
  simTime : ℕ
  /-- What `Cam_GetInteriorSeatPos` / `Cam_GetInteriorHeadRot` return. -/
  cam : CurrentCameraState
  /-- `SPF_CabinWalk::IsWalkKeyDown()`. -/
  walkKey : Bool
  /-- The settings store's authored poses. -/
  settings : SettingsPositions
  /-- The sequence built by the registered factory for a graph edge
  (`g_sequence_factory`), given `(from, to, start_state, target_state)`. -/
  majorFactory : CameraPosition → CameraPosition → CurrentCameraState →
    CurrentCameraState → AnimationSequence
  /-- `AnimationSequences::CreateCrouchDownSequence` (possibly null). -/
  crouchFactory : CurrentCameraState → GazeDirection → Option AnimationSequence
  /-- `AnimationSequences::CreateTiptoeSequence`. -/
  tiptoeFactory : CurrentCameraState → GazeDirection → Option AnimationSequence
  /-- `AnimationSequences::CreateStandUpSequence`. -/
  standUpFactory : CurrentCameraState → GazeDirection → Option AnimationSequence
  /-- `AnimationSequences::CreateStandDownSequence`. -/
  standDownFactory : CurrentCameraState → GazeDirection → Option AnimationSequence
  /-- `AnimationSequences::CreateDynamicFirstStepSequence`. -/
  firstStepFactory : CurrentCameraState → Bool → Option AnimationSequence
  /-- `AnimationSequences::CreateWalkStepSequence`. -/
  walkStepFactory : CurrentCameraState → Bool → Option AnimationSequence

/-- The paired `Cam_GetInteriorSeatPos` / `Cam_GetInteriorHeadRot` read with
`rotation.z = 0.0f` (roll is not retrieved). -/
def camRead (e : Env) : CurrentCameraState :=
  { position := e.cam.position
    rotation := { x := e.cam.rotation.x, y := e.cam.rotation.y, z := 0 } }

/-- `AnimationController::IsAnimating`. -/
def isAnimating (s : State) : Bool :=
  match s.active with
  | some q => q.IsPlaying
  | none => false

/-- `StandingAnimController::IsAnimating`. -/
def stanceIsAnimating (s : State) : Bool :=
  match s.stanceActive with
  | some q => q.IsPlaying
  | none => false

/-- `AnimationController::HasPendingMoves`. -/
def hasPendingMoves (s : State) : Bool := !s.pending.isEmpty

/-- `StandingAnimController::GetGazeDirection`: yaw bucketed into four
90-degree sectors. -/
def getGazeDirection (yaw_radians : ℚ) : GazeDirection :=
  let quarter_pi := piQ / 4
  let three_quarters_pi := 3 * piQ / 4
  if -quarter_pi ≤ yaw_radians ∧ yaw_radians ≤ quarter_pi then .Forward
  else if quarter_pi < yaw_radians ∧ yaw_radians ≤ three_quarters_pi then .Left
  else if yaw_radians < -quarter_pi ∧ -three_quarters_pi ≤ yaw_radians then .Right
  else .Backward

/-- `StandingAnimController::OnEnterStandingState`. -/
def onEnterStandingState (s : State) : State :=
  { s with stance := .Standing, stanceActive := none }

/-- `StandingAnimController::TriggerStandUp`: refuse when animating or not
crouching; otherwise read the camera, build the stand-up sequence and start
it (a null factory result leaves no active sequence and no stance change). -/
def triggerStandUp (e : Env) (s : State) : State :=
  if stanceIsAnimating s || !(s.stance = .Crouching) then s
  else
    let current_state := camRead e
    let gaze := getGazeDirection current_state.rotation.x
    match e.standUpFactory current_state gaze with
    | some q =>
      { s with stanceActive := some (q.Start current_state), stance := .InTransition,
               transitionTo := .Standing }
    | none => { s with stanceActive := none }

/-- `StandingAnimController::TriggerStandDown` (symmetric, from `Tiptoes`). -/
def triggerStandDown (e : Env) (s : State) : State :=
  if stanceIsAnimating s || !(s.stance = .Tiptoes) then s
  else
    let current_state := camRead e
    let gaze := getGazeDirection current_state.rotation.x
    match e.standDownFactory current_state gaze with
    | some q =>
      { s with stanceActive := some (q.Start current_state), stance := .InTransition,
               transitionTo := .Standing }
    | none => { s with stanceActive := none }

/-- `StandingAnimController::TriggerWalkStepTowards`: one walk step toward
home, bypassing the walk-key check; out-of-bounds steps reset the first-step
flag instead. -/
def triggerWalkStepTowards (e : Env) (current_state : CurrentCameraState)
    (is_walking_forward : Bool) (s : State) : State :=
  if stanceIsAnimating s then s
  else
    let next_z_pos := current_state.position.z +
      (if is_walking_forward then -STEP_AMOUNT else STEP_AMOUNT)
    if MIN_Z ≤ next_z_pos ∧ next_z_pos ≤ MAX_Z then
      if !s.hasTakenFirstStep then
        match e.firstStepFactory current_state is_walking_forward with
        | some q =>
          { s with hasTakenFirstStep := true, stanceActive := some (q.Start current_state) }
        | none => { s with hasTakenFirstStep := true, stanceActive := none }
      else
        match e.walkStepFactory current_state is_walking_forward with
        | some q => { s with stanceActive := some (q.Start current_state) }
        | none => { s with stanceActive := none }
    else { s with hasTakenFirstStep := false }

/-- Modelled from the spec: the two-argument
`StandingAnimController::CanSitDown(target, target_z)` declared in
`StandingAnimController.hpp` and called from `AnimationController::MoveTo`
has no body in the source snapshot (the `.cpp` only carries a superseded
one-argument revision hard-coded to Z=0). Per the spec: if the live camera Z
exceeds the target's authored Z by more than one step amount, switch the
stance to `WalkingToFinalDestination`, remember the final destination and
return false; otherwise return true with the state untouched. Returns the
`bool` result together with the updated state. -/
def canSitDown (e : Env) (s : State) (target : CameraPosition) (target_z : ℚ) :
    Bool × State :=
  let current_state := camRead e
  let z_current := current_state.position.z
  if z_current - target_z > STEP_AMOUNT then
    (false, { s with stance := .WalkingToFinalDestination, finalDest := target })
  else (true, s)

/-- `AnimationController::GetTargetTransformForPosition`. -/
def getTargetTransformForPosition (e : Env) (s : State) (pos : CameraPosition) : Transform :=
  match pos with
  | .Passenger => e.settings.passenger_seat
  | .Standing => e.settings.standing
  | .SofaSit1 => e.settings.sofa_sit1
  | .SofaLie => e.settings.sofa_lie
  | .SofaSit2 => e.settings.sofa_sit2
  | .Driver => { position := s.cachedDriver.position, rotation := s.cachedDriver.rotation }
  | _ => { position := ⟨0, 0, 0⟩, rotation := ⟨0, 0, 0⟩ }

/-- `AnimationController::GetTargetZForPosition`. -/
def getTargetZForPosition (e : Env) (s : State) (pos : CameraPosition) : ℚ :=
  match pos with
  | .Driver => s.cachedDriver.position.z
  | .Passenger => e.settings.passenger_seat.position.z
  | .SofaSit1 => e.settings.sofa_sit1.position.z
  | .SofaLie => e.settings.sofa_lie.position.z
  | .SofaSit2 => e.settings.sofa_sit2.position.z
  | _ => 0

/-- The transition graph after `AnimationController::Initialize` registered
every factory (`RegisterSequence` calls, `src/unnamed/part_006:109-156`). -/
def hasEdge : CameraPosition → CameraPosition → Bool
  | .Driver, .Passenger => true
  | .Passenger, .Driver => true
  | .Driver, .Standing => true
  | .Standing, .Driver => true
  | .Passenger, .Standing => true
  | .Standing, .Passenger => true
  | .Standing, .SofaSit1 => true
  | .SofaSit1, .Standing => true
  | .SofaSit1, .SofaLie => true
  | .SofaSit1, .SofaSit2 => true
  | .SofaLie, .SofaSit2 => true
  | .SofaLie, .SofaSit1 => true
  | .SofaSit2, .SofaSit1 => true
  | _, _ => false

/-- The normal-transition tail of `AnimationController::MoveTo`
(`src/unnamed/part_006:330-413`): capture the camera state, look up the
graph edge; on a hit, cache the driver pose when leaving the driver seat,
build the target state (cached driver pose when returning to the driver,
settings pose with the initial roll otherwise), reset the clock base,
build and start the sequence and record the target; on a miss, snap: commit
the position, drop any sequence, and reset the stance when entering
`Standing`. (The snap branch's direct device writes and the hook-layer
notifications go to external collaborators and are not part of `State`.) -/
def moveNormal (e : Env) (target : CameraPosition) (s : State) : State :=
  let initial_state := camRead e
  if hasEdge s.current target then
    let s := if s.current = .Driver then { s with cachedDriver := initial_state } else s
    let animation_target_state : CurrentCameraState :=
      if target = .Driver then s.cachedDriver
      else
        let target_transform := getTargetTransformForPosition e s target
        { position := target_transform.position
          rotation := { x := target_transform.rotation.x, y := target_transform.rotation.y,
                        z := initial_state.rotation.z } }
    let s := { s with lastSim := e.simTime }
    { s with
      active := some ((e.majorFactory s.current target initial_state
        animation_target_state).Start initial_state)
      target := target }
  else
    let s := { s with current := target, target := target, active := none }
    if target = .Standing then onEnterStandingState s else s

/-- `AnimationController::MoveTo(target)`: refuse while either layer is
animating, on a same-position request, or without the camera API; apply the
stance-gating rules when leaving `Standing` toward a seat or the sofa
(defer behind a stand-up/stand-down, or hand off to `CanSitDown`'s walk
logic); otherwise run the normal transition. -/
def moveTo (e : Env) (target : CameraPosition) (s : State) : State :=
  if isAnimating s || stanceIsAnimating s then s
  else if target = s.current then s
  else if !e.camReady then s
  else if s.current = .Standing ∧
      (target = .Driver ∨ target = .Passenger ∨ target = .SofaSit1) then
    if !(s.stance = .Standing) then
      let s := { s with pending := s.pending ++ [target] }
      if s.stance = .Crouching then triggerStandUp e s
      else if s.stance = .Tiptoes then triggerStandDown e s
      else s
    else
      let target_z := getTargetZForPosition e s target
      if target = .Driver ∨ target = .Passenger then
        let current_state := camRead e
        if current_state.position.z < 0 then moveNormal e target s
        else
          match canSitDown e s target target_z with
          | (true, s) => moveNormal e target s
          | (false, s) => s
      else
        match canSitDown e s target target_z with
        | (true, s) => moveNormal e target s
        | (false, s) => s
  else moveNormal e target s

/-- The crouch/tiptoe hold-time checks at the tail of the `Standing` case of
`StandingAnimController::Update` (`StandingAnimController.cpp:133-178`),
reached when no walk step was started this tick. -/
def standingStanceChecks (e : Env) (current_state : CurrentCameraState) (delta : ℕ)
    (s : State) : State :=
  if stanceIsAnimating s then s
  else if current_state.rotation.y < CROUCH_DOWN_ANGLE then
    let s := { s with tCrouch := s.tCrouch + delta, tTiptoe := 0 }
    if HOLD_TIME_MS ≤ s.tCrouch then
      let s := { s with tCrouch := 0 }
      let gaze := getGazeDirection current_state.rotation.x
      match e.crouchFactory current_state gaze with
      | some q =>
        { s with stanceActive := some (q.Start current_state), stance := .InTransition,
                 transitionTo := .Crouching }
      | none => { s with stanceActive := none }
    else s
  else if TIPTOE_UP_ANGLE < current_state.rotation.y then
    let s := { s with tTiptoe := s.tTiptoe + delta, tCrouch := 0 }
    if HOLD_TIME_MS ≤ s.tTiptoe then
      let s := { s with tTiptoe := 0 }
      let gaze := getGazeDirection current_state.rotation.x
      match e.tiptoeFactory current_state gaze with
      | some q =>
        { s with stanceActive := some (q.Start current_state), stance := .InTransition,
                 transitionTo := .Tiptoes }
      | none => { s with stanceActive := none }
    else s
  else { s with tCrouch := 0, tTiptoe := 0 }

/-- The `Standing` case of the stance switch: reset the other zones' timers,
run the continuous-walking logic when the walk key is held (first step uses
the dynamic variant, later steps the plain variant; a null factory result or
an out-of-bounds step falls through), else reset the first-step flag; then
the crouch/tiptoe checks. -/
def stanceCaseStanding (e : Env) (current_state : CurrentCameraState) (delta : ℕ)
    (s : State) : State :=
  let s := { s with tStandup := 0, tStanddown := 0 }
  if e.walkKey then
    if !stanceIsAnimating s then
      let is_walking_forward : Bool :=
        decide (-(piQ / 2) ≤ current_state.rotation.x ∧ current_state.rotation.x ≤ piQ / 2)
      let next_z_pos := current_state.position.z +
        (if is_walking_forward then -STEP_AMOUNT else STEP_AMOUNT)
      if MIN_Z ≤ next_z_pos ∧ next_z_pos ≤ MAX_Z then
        if !s.hasTakenFirstStep then
          match e.firstStepFactory current_state is_walking_forward with
          | some q =>
            { s with hasTakenFirstStep := true, stanceActive := some (q.Start current_state) }
          | none =>
            standingStanceChecks e current_state delta
              { s with hasTakenFirstStep := true, stanceActive := none }
        else
          match e.walkStepFactory current_state is_walking_forward with
          | some q => { s with stanceActive := some (q.Start current_state) }
          | none => standingStanceChecks e current_state delta { s with stanceActive := none }
      else standingStanceChecks e current_state delta s
    else standingStanceChecks e current_state delta s
  else
    standingStanceChecks e current_state delta { s with hasTakenFirstStep := false }

/-- The stance-machine switch of `StandingAnimController::Update`
(`StandingAnimController.cpp:92-250`), reached when no stance sequence is
playing. -/
def stanceMachine (e : Env) (current_state : CurrentCameraState) (delta : ℕ)
    (s : State) : State :=
  match s.stance with
  | .Standing => stanceCaseStanding e current_state delta s
  | .Crouching =>
    let s := { s with tCrouch := 0, tTiptoe := 0 }
    if STAND_UP_ANGLE < current_state.rotation.y then
      let s := { s with tStandup := s.tStandup + delta }
      if HOLD_TIME_MS ≤ s.tStandup then triggerStandUp e { s with tStandup := 0 }
      else s
    else { s with tStandup := 0 }
  | .Tiptoes =>
    let s := { s with tCrouch := 0, tTiptoe := 0 }
    if current_state.rotation.y < STAND_DOWN_ANGLE then
      let s := { s with tStanddown := s.tStanddown + delta }
      if HOLD_TIME_MS ≤ s.tStanddown then triggerStandDown e { s with tStanddown := 0 }
      else s
    else { s with tStanddown := 0 }
  | .InTransition => s
  | .WalkingToFinalDestination =>
    let z_current := current_state.position.z
    if |z_current - 0| ≤ STEP_AMOUNT then
      moveTo e s.finalDest { s with stance := .Standing }
    else
      let is_walking_forward : Bool := decide (z_current > 0)
      triggerWalkStepTowards e current_state is_walking_forward s

/-- `StandingAnimController::Update(current_state)`: bail without the core
API, read the clock and derive the delta, drive an active stance sequence to
completion (committing the remembered stance when an `InTransition` sequence
finishes), else run the stance machine. -/
def stanceUpdate (e : Env) (current_state : CurrentCameraState) (s : State) : State :=
  if !e.coreReady then s
  else
    let delta := e.simTime - s.stanceLastSim
    let s := { s with stanceLastSim := e.simTime }
    match s.stanceActive with
    | some q =>
      if q.IsPlaying then
        let u := q.Update delta e.camReady
        if u.2.1 then { s with stanceActive := some u.1 }
        else
          let s := { s with stanceActive := none }
          if s.stance = .InTransition then { s with stance := s.transitionTo } else s
      else stanceMachine e current_state delta s
    | none => stanceMachine e current_state delta s

/-- `AnimationController::Update()` (`src/unnamed/part_006:158-256`), one
frame: bail without the core API; apply a dirty settings flag when fully
idle; pop and start the next pending leg when fully idle with the base
stance (and return); else drive a playing major sequence (on completion
commit the position, reset the stance when arriving at `Standing`, and chain
the next pending leg immediately); else hand the frame to the stance layer
when standing. -/
def settingsStep (s : State) : State :=
  if s.settingsDirty then
    if !isAnimating s && !stanceIsAnimating s then { s with settingsDirty := false }
    else s
  else s

/-- The completion tail of the major-transition branch of
`AnimationController::Update`: the sequence just finished, so commit
`current = target`, reset the stance when arriving at `Standing`, and chain
the next pending leg immediately when fully idle. -/
def majorFinished (e : Env) (s : State) : State :=
  let s := { s with active := none, current := s.target }
  let s := if s.current = .Standing then onEnterStandingState s else s
  if hasPendingMoves s && (!isAnimating s && !stanceIsAnimating s) then
    match s.pending with
    | next_move :: rest => moveTo e next_move { s with pending := rest }
    | [] => s
  else s

/-- The body of `AnimationController::Update` after the settings block. -/
def tickMain (e : Env) (s : State) : State :=
  if hasPendingMoves s &&
      (!isAnimating s && !stanceIsAnimating s && decide (s.stance = Stance.Standing)) then
    match s.pending with
    | next_move :: rest => moveTo e next_move { s with pending := rest }
    | [] => s
  else
    match s.active with
    | some q =>
      if q.IsPlaying then
        let delta := e.simTime - s.lastSim
        let s := { s with lastSim := e.simTime }
        let u := q.Update delta e.camReady
        if u.2.1 then { s with active := some u.1 }
        else majorFinished e { s with active := some u.1 }
      else if s.current = .Standing then stanceUpdate e (camRead e) s else s
    | none =>
      if s.current = .Standing then stanceUpdate e (camRead e) s else s

def tick (e : Env) (s : State) : State :=
  if !e.coreReady then s
  else tickMain e (settingsStep s)

/-- The path planner inside `AnimationController::OnRequestMove`
(`src/unnamed/part_006:442-493`): the ordered waypoint list queued for a
request, as a function of the current position and the final destination. -/
def planPath (current_pos final_destination : CameraPosition) : List CameraPosition :=
  if (current_pos = .Driver ∧ final_destination = .Passenger) ∨
      (current_pos = .Passenger ∧ final_destination = .Driver) then
    [final_destination]
  else if current_pos = .SofaLie ∨ current_pos = .SofaSit2 ∨ current_pos = .SofaSit1 then
    let needs_to_stand : Bool :=
      decide (final_destination = CameraPosition.Standing ∨
        final_destination = CameraPosition.Driver ∨
        final_destination = CameraPosition.Passenger)
    let q : List CameraPosition :=
      if current_pos = .SofaLie then [.SofaSit1]
      else if current_pos = .SofaSit2 then [.SofaSit1]
      else []
    let q := if needs_to_stand then q ++ [.Standing] else q
    if q.isEmpty || !(q.getLast? = some final_destination) then q ++ [final_destination]
    else q
  else if current_pos = .Driver ∨ current_pos = .Passenger then
    .Standing :: (if !(final_destination = CameraPosition.Standing) then [final_destination] else [])
  else [final_destination]

/-- `AnimationController::OnRequestMove(final_destination)`: refuse while a
path is queued or either layer is animating, and on same-position requests;
otherwise clear the (already empty) queue, plan the path, queue it, then pop
and start the first leg. -/
def onRequestMove (e : Env) (final_destination : CameraPosition) (s : State) : State :=
  if hasPendingMoves s || isAnimating s || stanceIsAnimating s then s
  else if s.current = final_destination then s
  else
    match planPath s.current final_destination with
    | next_move :: rest => moveTo e next_move { s with pending := rest }
    | [] => s

/-- `AnimationController::NotifySettingsUpdated`. -/
def notifySettingsUpdated (s : State) : State := { s with settingsDirty := true }

/-- The module state after `Initialize`: at the driver seat, nothing playing,
empty queue, base stance, zeroed statics. -/
def initState : State :=
  { active := none
    current := .Driver
    target := .Driver
    cachedDriver := ⟨⟨0, 0, 0⟩, ⟨0, 0, 0⟩⟩
    lastSim := 0
    pending := []
    settingsDirty := false
    stance := .Standing
    finalDest := .Driver
    transitionTo := .Standing
    stanceActive := none
    stanceLastSim := 0
    hasTakenFirstStep := false
    tCrouch := 0
    tTiptoe := 0
    tStandup := 0
    tStanddown := 0 }

/-- One externally triggerable operation of the system: a frame update, a
top-level move request, or a settings-changed notification, under an
arbitrary environment. -/
def Step (s s' : State) : Prop :=
  (∃ e, s' = tick e s) ∨
  (∃ e d, s' = onRequestMove e d s) ∨
  (s' = notifySettingsUpdated s)

/-- States reachable from the initial state by any interleaving of the
externally triggerable operations. -/
def Reachable (s : State) : Prop := Relation.ReflTransGen Step initState s

/-- The mutual-exclusion invariant: the major-transition layer and the
stance layer are never both playing. -/
def AtMostOnePlaying (s : State) : Prop :=
  (isAnimating s && stanceIsAnimating s) = false

/-- Concrete fixture: the empty track. -/
def emptyTrack : Track := ⟨[]⟩

/-- Concrete fixture: the all-zero camera state. -/
def zeroCam : CurrentCameraState := ⟨⟨0, 0, 0⟩, ⟨0, 0, 0⟩⟩

/-- Concrete fixture: a two-keyframe linear ramp track from 3 to 7. -/
def rampTrack : Track :=
  ⟨[⟨0, 3, fun t => t⟩, ⟨1, 7, fun t => t⟩]⟩

/-- Concrete fixture: a sequence of duration `d` with the ramp on position x
and every other channel trackless, not yet started. -/
def fixtureSeq (d : ℕ) : AnimationSequence :=
  { m_duration_ms := d
    m_is_playing := false
    m_current_elapsed_time_ms := 0
    m_position_x_track := rampTrack
    m_position_y_track := emptyTrack
    m_position_z_track := emptyTrack
    m_rotation_yaw_track := emptyTrack
    m_rotation_pitch_track := emptyTrack
    m_rotation_roll_track := emptyTrack
    m_initial_camera_state := zeroCam }

/-- Concrete fixture: authored settings poses (values irrelevant to the
claims, chosen distinct). -/
def fixtureSettings : SettingsPositions :=
  { passenger_seat := ⟨⟨95/100, 0, -3/100⟩, ⟨3/100, 3/100, 0⟩⟩
    standing := ⟨⟨1/2, 1/5, 1/4⟩, ⟨-17/100, -3/10, 0⟩⟩
    sofa_sit1 := ⟨⟨1, 1, 0⟩, ⟨0, 0, 0⟩⟩
    sofa_lie := ⟨⟨1, 2, 0⟩, ⟨0, 0, 0⟩⟩
    sofa_sit2 := ⟨⟨1, 3, 0⟩, ⟨0, 0, 0⟩⟩ }

/-- Concrete fixture environment: all collaborators present, camera at the
origin, walk key up, every factory returning a fresh 1000ms sequence. -/
def fixtureEnv : Env :=
  { coreReady := true
    camReady := true
    simTime := 0
    cam := zeroCam
    walkKey := false
    settings := fixtureSettings
    majorFactory := fun _ _ start_state _ => { fixtureSeq 1000 with m_initial_camera_state := start_state }
    crouchFactory := fun start_state _ => some { fixtureSeq 1000 with m_initial_camera_state := start_state }
    tiptoeFactory := fun start_state _ => some { fixtureSeq 1000 with m_initial_camera_state := start_state }
    standUpFactory := fun start_state _ => some { fixtureSeq 1000 with m_initial_camera_state := start_state }
    standDownFactory := fun start_state _ => some { fixtureSeq 1000 with m_initial_camera_state := start_state }
    firstStepFactory := fun start_state _ => some { fixtureSeq 1000 with m_initial_camera_state := start_state }
    walkStepFactory := fun start_state _ => some { fixtureSeq 1000 with m_initial_camera_state := start_state } }

/-- A run of stance-layer updates (`StandingAnimController::Update` once per
tick), each tick passing the camera state the controller reads for it. -/
def runStance (s : State) : List Env → State
  | [] => s
  | e :: es => runStance (stanceUpdate e (camRead e) s) es

/-- The cumulative delta a run derives from the telemetry clock, starting
from the given last-read timestamp (each tick's delta is
`timestamps.simulation - last_simulation_time`). -/
def sumDeltas (last : ℕ) : List Env → ℕ
  | [] => 0
  | e :: es => (e.simTime - last) + sumDeltas e.simTime es

/-- A tick on which the camera pitch is held in the crouch trigger zone with
the walk key up and the core API present. -/
def crouchZoneTick (e : Env) : Prop :=
  e.coreReady = true ∧ e.walkKey = false ∧ e.cam.rotation.y < CROUCH_DOWN_ANGLE

instance (e : Env) : Decidable (crouchZoneTick e) :=
  inferInstanceAs (Decidable (_ ∧ _ ∧ _))

/-- Concrete fixture: a tick at clock `t` with the pitch deep in the crouch
zone. -/
def crouchEnv (t : ℕ) : Env :=
  { fixtureEnv with simTime := t, cam := ⟨⟨0, 0, 0⟩, ⟨0, -1, 0⟩⟩ }

/-! ## Theorems -/

theorem addKeyframe_sorted (t : Track) (k : Keyframe) :
    ProgressSorted (t.AddKeyframe k).m_keyframes :=
  List.sorted_insertionSort keyframeLE _

theorem foldl_addKeyframe_sorted (ks : List Keyframe) (t : Track)
    (h : ProgressSorted t.m_keyframes) :
    ProgressSorted ((ks.foldl Track.AddKeyframe t).m_keyframes) := by
  induction ks generalizing t with
  | nil => exact h
  | cons k ks ih => exact ih _ (addKeyframe_sorted t k)

/-- C8: after any finite sequence of `AddKeyframe` calls — whether starting
from the freshly constructed empty track, or making at least one call on any
track whatsoever — the track's internal keyframe list is sorted ascending by
`progress`. -/
theorem track_monotonic_progress_c8 :
    (∀ ks : List Keyframe,
      ProgressSorted ((ks.foldl Track.AddKeyframe ⟨[]⟩).m_keyframes)) ∧
    (∀ (t : Track) (k : Keyframe) (ks : List Keyframe),
      ProgressSorted (((k :: ks).foldl Track.AddKeyframe t).m_keyframes)) := by
  constructor
  · intro ks
    exact foldl_addKeyframe_sorted ks ⟨[]⟩ List.sorted_nil
  · intro t k ks
    exact foldl_addKeyframe_sorted ks _ (addKeyframe_sorted t k)

theorem sorted_head_le (k : Keyframe) (rest : List Keyframe)
    (hs : ProgressSorted (k :: rest)) :
    ∀ k' ∈ k :: rest, k.progress ≤ k'.progress := by
  intro k' hk'
  rcases List.mem_cons.mp hk' with h | h
  · subst h; exact le_refl _
  · exact (List.pairwise_cons.mp hs).1 k' h

theorem sorted_le_getLast : ∀ (l : List Keyframe) (hne : l ≠ []),
    ProgressSorted l → ∀ x ∈ l, x.progress ≤ (l.getLast hne).progress := by
  intro l
  induction l with
  | nil => intro hne; exact absurd rfl hne
  | cons a t ih =>
    intro hne hs x hx
    cases t with
    | nil =>
      rcases List.mem_singleton.mp hx with rfl
      simp [List.getLast]
    | cons b t' =>
      rw [List.getLast_cons (List.cons_ne_nil b t')]
      rcases List.mem_cons.mp hx with rfl | hx'
      · exact (List.pairwise_cons.mp hs).1 _ (List.getLast_mem (List.cons_ne_nil b t'))
      · exact ih (List.cons_ne_nil b t') (List.pairwise_cons.mp hs).2 x hx'

theorem evaluate_before_first (k : Keyframe) (rest : List Keyframe) (p d : ℚ)
    (hp : p ≤ k.progress) : Track.Evaluate ⟨k :: rest⟩ p d = k.value := by
  simp [Track.Evaluate, hp]

theorem evaluate_after_last (k : Keyframe) (rest : List Keyframe) (p d : ℚ)
    (hple : ¬ p ≤ k.progress)
    (hp : ((k :: rest).getLast (List.cons_ne_nil k rest)).progress ≤ p) :
    Track.Evaluate ⟨k :: rest⟩ p d =
      ((k :: rest).getLast (List.cons_ne_nil k rest)).value := by
  simp [Track.Evaluate, hple, hp]

/-- C2: on a (sorted, as `AddKeyframe` maintains) track with at least one
keyframe, the head keyframe is a minimum-progress keyframe and `Evaluate`
returns its value for every input at or below its progress; and for every
input at or above the last keyframe's progress, `Evaluate` returns the value
of a maximum-progress keyframe — whatever the values and easing functions. -/
theorem track_evaluate_boundary_c2 (k : Keyframe) (rest : List Keyframe) (p d : ℚ)
    (hs : ProgressSorted (k :: rest)) :
    (∀ k' ∈ k :: rest, k.progress ≤ k'.progress) ∧
    (p ≤ k.progress → Track.Evaluate ⟨k :: rest⟩ p d = k.value) ∧
    (((k :: rest).getLast (List.cons_ne_nil k rest)).progress ≤ p →
      ∃ m ∈ k :: rest, (∀ k' ∈ k :: rest, k'.progress ≤ m.progress) ∧
        Track.Evaluate ⟨k :: rest⟩ p d = m.value) := by
  refine ⟨sorted_head_le k rest hs, fun hp => evaluate_before_first k rest p d hp, ?_⟩
  intro hp
  by_cases hple : p ≤ k.progress
  · refine ⟨k, List.mem_cons_self k rest, ?_, evaluate_before_first k rest p d hple⟩
    intro k' hk'
    exact le_trans (sorted_le_getLast _ (List.cons_ne_nil k rest) hs k' hk')
      (le_trans hp hple)
  · refine ⟨(k :: rest).getLast (List.cons_ne_nil k rest),
      List.getLast_mem _, ?_, evaluate_after_last k rest p d hple hp⟩
    intro k' hk'
    exact sorted_le_getLast _ (List.cons_ne_nil k rest) hs k' hk'

/-- Witness for C2 at a concrete sorted two-keyframe track. -/
theorem track_evaluate_boundary_c2_witness :
    ProgressSorted rampTrack.m_keyframes ∧
    ((∀ k' ∈ rampTrack.m_keyframes, (0 : ℚ) ≤ k'.progress) ∧
      ((-1 : ℚ) ≤ 0 → Track.Evaluate rampTrack (-1) 0 = 3) ∧
      ((1 : ℚ) ≤ -1 →
        ∃ m ∈ rampTrack.m_keyframes, (∀ k' ∈ rampTrack.m_keyframes, k'.progress ≤ m.progress) ∧
          Track.Evaluate rampTrack (-1) 0 = m.value)) := by
  constructor
  · decide
  · exact track_evaluate_boundary_c2 ⟨0, 3, fun t => t⟩ [⟨1, 7, fun t => t⟩] (-1) 0 (by decide)

theorem interpSegmentChecked_eq (s_kf e_kf : Keyframe) (p : ℚ) :
    interpSegmentChecked s_kf e_kf p = some (interpSegment s_kf e_kf p) := by
  unfold interpSegmentChecked interpSegment checkedDiv
  by_cases h : e_kf.progress - s_kf.progress = 0
  · simp [h]
  · simp [h]

theorem evaluateChecked_eq (t : Track) (p d : ℚ) :
    t.EvaluateChecked p d = some (t.Evaluate p d) := by
  obtain ⟨kfs⟩ := t
  cases kfs with
  | nil => rfl
  | cons k rest =>
    by_cases h1 : p ≤ k.progress
    · simp [Track.EvaluateChecked, Track.Evaluate, h1]
    · by_cases h2 : ((k :: rest).getLast (List.cons_ne_nil k rest)).progress ≤ p
      · simp [Track.EvaluateChecked, Track.Evaluate, h1, h2]
      · cases hbr : findBracket p k rest with
        | none => simp [Track.EvaluateChecked, Track.Evaluate, h1, h2, hbr]
        | some pr =>
          obtain ⟨s_kf, e_kf⟩ := pr
          simp [Track.EvaluateChecked, Track.Evaluate, h1, h2, hbr,
            interpSegmentChecked_eq]

/-- C9: the zero-width-segment guard makes evaluation total — whenever the
bracketing keyframes' progresses coincide (the denominator of the
local-progress division is 0), the interpolation step returns the start
keyframe's value instead of dividing, and `Evaluate` (with every division
made observable via `checkedDiv`) never reaches a division fault on any
track and progress. -/
theorem evaluate_zero_width_total_c9 (s_kf e_kf : Keyframe) (p d : ℚ)
    (kfs : List Keyframe)
    (h : e_kf.progress - s_kf.progress = 0) :
    interpSegment s_kf e_kf p = s_kf.value ∧
    Track.EvaluateChecked ⟨kfs⟩ p d = some (Track.Evaluate ⟨kfs⟩ p d) := by
  constructor
  · unfold interpSegment
    simp [h]
  · exact evaluateChecked_eq ⟨kfs⟩ p d

/-- Witness for C9 at a zero-width segment with distinct values. -/
theorem evaluate_zero_width_total_c9_witness :
    ((1/2 : ℚ) - 1/2 = 0) ∧
    (interpSegment ⟨1/2, 9, fun t => t⟩ ⟨1/2, 4, fun t => t⟩ (3/4) = 9 ∧
      Track.EvaluateChecked ⟨[⟨0, 1, fun t => t⟩, ⟨1, 2, fun t => t⟩]⟩ (3/4) 0 =
        some (Track.Evaluate ⟨[⟨0, 1, fun t => t⟩, ⟨1, 2, fun t => t⟩]⟩ (3/4) 0)) :=
  ⟨by norm_num,
   evaluate_zero_width_total_c9 ⟨1/2, 9, fun t => t⟩ ⟨1/2, 4, fun t => t⟩ (3/4) 0
     [⟨0, 1, fun t => t⟩, ⟨1, 2, fun t => t⟩] (by norm_num)⟩

theorem update_not_playing (s : AnimationSequence) (delta : ℕ) (camera_present : Bool)
    (h : s.m_is_playing = false) :
    s.Update delta camera_present = (s, false, []) := by
  unfold AnimationSequence.Update
  rw [if_pos h]

/-- C10: on a sequence whose playing flag is off, `Update` returns false,
changes nothing (in particular the elapsed-time counter and the captured
initial pose), and performs no camera write. -/
theorem update_when_not_playing_c10 (s : AnimationSequence) (delta : ℕ)
    (camera_present : Bool) (h : s.m_is_playing = false) :
    s.Update delta camera_present = (s, false, []) :=
  update_not_playing s delta camera_present h

/-- Witness for C10 on a concrete unstarted sequence. -/
theorem update_when_not_playing_c10_witness :
    (fixtureSeq 1000).m_is_playing = false ∧
    (fixtureSeq 1000).Update 250 true = (fixtureSeq 1000, false, []) :=
  ⟨rfl, update_when_not_playing_c10 (fixtureSeq 1000) 250 true rfl⟩

theorem runUpdates_not_playing (s : AnimationSequence) (ds : List ℕ)
    (h : s.m_is_playing = false) : runUpdates s ds = (s, []) := by
  induction ds with
  | nil => rfl
  | cons d ds ih =>
    simp only [runUpdates, update_not_playing s d true h, ih, List.nil_append]

theorem applyWrites_pose (dev : CameraDevice) (a b c u v : ℚ) :
    applyWrites dev [CamWrite.setInteriorSeatPos a b c, CamWrite.setInteriorHeadRot u v] =
      ⟨a, b, c, u, v⟩ := by
  cases dev
  rfl

theorem runUpdates_completes (deltas : List ℕ) (s : AnimationSequence)
    (hplay : s.m_is_playing = true)
    (hlt : s.m_current_elapsed_time_ms < s.m_duration_ms)
    (hsum : s.m_duration_ms ≤ s.m_current_elapsed_time_ms + deltas.sum) :
    (runUpdates s deltas).1.m_is_playing = false ∧
    ∀ dev, applyWrites dev (runUpdates s deltas).2 = sequenceTargetDevice s := by
  induction deltas generalizing s with
  | nil =>
    simp only [List.sum_nil, Nat.add_zero] at hsum
    omega
  | cons d ds ih =>
    have hd0 : s.m_duration_ms ≠ 0 := by omega
    by_cases hdone : s.m_duration_ms ≤ s.m_current_elapsed_time_ms + d
    · -- this call completes the sequence
      have hupd : s.Update d true =
          ({ s with m_current_elapsed_time_ms := s.m_duration_ms, m_is_playing := false },
           false,
           [CamWrite.setInteriorSeatPos
              (trackOrInitial s.m_position_x_track 1 s.m_initial_camera_state.position.x)
              (trackOrInitial s.m_position_y_track 1 s.m_initial_camera_state.position.y)
              (trackOrInitial s.m_position_z_track 1 s.m_initial_camera_state.position.z),
            CamWrite.setInteriorHeadRot
              (trackOrInitial s.m_rotation_yaw_track 1 s.m_initial_camera_state.rotation.x)
              (trackOrInitial s.m_rotation_pitch_track 1 s.m_initial_camera_state.rotation.y)]) := by
        unfold AnimationSequence.Update
        rw [if_neg (by simp [hplay])]
        simp only [hdone, if_true, if_pos hdone]
        rw [if_neg (by simp)]
        rw [if_neg hd0]
        rw [div_self (by exact_mod_cast hd0)]
      constructor
      · simp only [runUpdates, hupd]
        have : runUpdates { s with m_current_elapsed_time_ms := s.m_duration_ms, m_is_playing := false } ds =
            ({ s with m_current_elapsed_time_ms := s.m_duration_ms, m_is_playing := false }, []) :=
          runUpdates_not_playing _ ds rfl
        simp [this]
      · intro dev
        simp only [runUpdates, hupd]
        have : runUpdates { s with m_current_elapsed_time_ms := s.m_duration_ms, m_is_playing := false } ds =
            ({ s with m_current_elapsed_time_ms := s.m_duration_ms, m_is_playing := false }, []) :=
          runUpdates_not_playing _ ds rfl
        simp only [this, List.append_nil]
        rw [applyWrites_pose]
        rfl
    · -- still mid-flight after this call
      have hupd : s.Update d true =
          ({ s with m_current_elapsed_time_ms := s.m_current_elapsed_time_ms + d, m_is_playing := true },
           true,
           [CamWrite.setInteriorSeatPos
              (trackOrInitial s.m_position_x_track
                ((s.m_current_elapsed_time_ms + d : ℕ) / (s.m_duration_ms : ℚ))
                s.m_initial_camera_state.position.x)
              (trackOrInitial s.m_position_y_track
                ((s.m_current_elapsed_time_ms + d : ℕ) / (s.m_duration_ms : ℚ))
                s.m_initial_camera_state.position.y)
              (trackOrInitial s.m_position_z_track
                ((s.m_current_elapsed_time_ms + d : ℕ) / (s.m_duration_ms : ℚ))
                s.m_initial_camera_state.position.z),
            CamWrite.setInteriorHeadRot
              (trackOrInitial s.m_rotation_yaw_track
                ((s.m_current_elapsed_time_ms + d : ℕ) / (s.m_duration_ms : ℚ))
                s.m_initial_camera_state.rotation.x)
              (trackOrInitial s.m_rotation_pitch_track
                ((s.m_current_elapsed_time_ms + d : ℕ) / (s.m_duration_ms : ℚ))
                s.m_initial_camera_state.rotation.y)]) := by
        unfold AnimationSequence.Update
        rw [if_neg (by simp [hplay])]
        simp only [hdone, if_false]
        rw [if_neg (by simp)]
        rw [if_neg hd0]
      have hrec := ih { s with m_current_elapsed_time_ms := s.m_current_elapsed_time_ms + d, m_is_playing := true } rfl (by simpa using lt_of_not_ge hdone) (by
        simp only [List.sum_cons] at hsum
        simpa using by omega)
      constructor
      · simp only [runUpdates, hupd]
        exact hrec.1
      · intro dev
        simp only [runUpdates, hupd]
        rw [applyWrites, List.foldl_append]
        exact hrec.2 _

/-- C1: a started sequence with positive duration, driven by updates whose
cumulative delta reaches the duration, ends not playing, and the camera ends
holding each present track's value at progress 1.0 with every trackless
channel at the initial pose captured at `Start` — regardless of the starting
device state. -/
theorem sequence_completion_c1 (s : AnimationSequence) (deltas : List ℕ) (dev : CameraDevice)
    (hplay : s.m_is_playing = true)
    (helapsed : s.m_current_elapsed_time_ms = 0)
    (hD : 0 < s.m_duration_ms)
    (hsum : s.m_duration_ms ≤ deltas.sum) :
    (runUpdates s deltas).1.IsPlaying = false ∧
    applyWrites dev (runUpdates s deltas).2 = sequenceTargetDevice s := by
  have h := runUpdates_completes deltas s hplay (by omega) (by omega)
  exact ⟨h.1, h.2 dev⟩

/-- Witness for C1 on a concrete 2ms sequence driven by two 1ms updates. -/
theorem sequence_completion_c1_witness :
    ({ fixtureSeq 2 with m_is_playing := true } : AnimationSequence).m_is_playing = true ∧
    ({ fixtureSeq 2 with m_is_playing := true } : AnimationSequence).m_current_elapsed_time_ms = 0 ∧
    0 < ({ fixtureSeq 2 with m_is_playing := true } : AnimationSequence).m_duration_ms ∧
    ({ fixtureSeq 2 with m_is_playing := true } : AnimationSequence).m_duration_ms ≤ [1, 1].sum ∧
    ((runUpdates { fixtureSeq 2 with m_is_playing := true } [1, 1]).1.IsPlaying = false ∧
      applyWrites ⟨9, 9, 9, 9, 9⟩ (runUpdates { fixtureSeq 2 with m_is_playing := true } [1, 1]).2 =
        sequenceTargetDevice { fixtureSeq 2 with m_is_playing := true }) :=
  ⟨rfl, rfl, by decide, by decide,
   sequence_completion_c1 _ [1, 1] ⟨9, 9, 9, 9, 9⟩ rfl rfl (by decide) (by decide)⟩

/-- C3 counterexample: with a leg already queued (`pending = [Standing]`,
nothing in flight), `OnRequestMove(Passenger)` leaves the state — including
the queue — completely unchanged and starts nothing, instead of clearing the
queued legs and replacing them with the freshly planned path toward the
destination (`planPath Driver Passenger = [Passenger]`). -/
theorem onRequestMove_midpath_counterexample :
    onRequestMove fixtureEnv .Passenger { initState with pending := [CameraPosition.Standing] } =
      { initState with pending := [CameraPosition.Standing] } ∧
    ({ initState with pending := [CameraPosition.Standing] } : State).pending =
      [CameraPosition.Standing] ∧
    isAnimating { initState with pending := [CameraPosition.Standing] } = false ∧
    stanceIsAnimating { initState with pending := [CameraPosition.Standing] } = false ∧
    planPath CameraPosition.Driver CameraPosition.Passenger = [CameraPosition.Passenger] := by
  refine ⟨rfl, rfl, rfl, rfl, by decide⟩

/-- C3 (amended): a top-level `OnRequestMove` issued while the pending-move
queue is non-empty is a no-op — the request-storm guard rejects it, the
queued legs are kept, and no new path is planned; (an in-flight sequence is
likewise untouched, running to completion). -/
theorem onRequestMove_midpath_noop_c3 (e : Env) (dest : CameraPosition) (s : State)
    (h : s.pending ≠ []) : onRequestMove e dest s = s := by
  have hp : s.pending.isEmpty = false := by
    cases hl : s.pending with
    | nil => exact absurd hl h
    | cons a t => rfl
  simp [onRequestMove, hasPendingMoves, hp]

/-- Witness for the amended C3 on a concrete mid-path state. -/
theorem onRequestMove_midpath_noop_c3_witness :
    ({ initState with pending := [CameraPosition.SofaSit1] } : State).pending ≠ [] ∧
    onRequestMove fixtureEnv .Driver { initState with pending := [CameraPosition.SofaSit1] } =
      { initState with pending := [CameraPosition.SofaSit1] } :=
  ⟨by simp, onRequestMove_midpath_noop_c3 fixtureEnv .Driver _ (by simp)⟩

/-- C4 (spec-modelled `CanSitDown`): when the live camera Z exceeds the
target's authored Z by more than one walk-step amount, the stance switches
to `WalkingToFinalDestination`, the final destination is remembered and the
call returns false; otherwise it returns true and leaves the state
untouched. -/
theorem canSitDown_walkback_c4 (e : Env) (s : State) (target : CameraPosition)
    (target_z : ℚ) :
    ((camRead e).position.z - target_z > STEP_AMOUNT →
      canSitDown e s target target_z =
        (false, { s with stance := .WalkingToFinalDestination, finalDest := target })) ∧
    (¬ ((camRead e).position.z - target_z > STEP_AMOUNT) →
      canSitDown e s target target_z = (true, s)) := by
  constructor <;> intro h <;> simp [canSitDown, h]

/-- Witness for C4: a far camera (Z = 1 toward authored Z = 0) walks back, a
near camera (Z = 0) sits immediately. -/
theorem canSitDown_walkback_c4_witness :
    (((camRead { fixtureEnv with cam := ⟨⟨0, 0, 1⟩, ⟨0, 0, 0⟩⟩ }).position.z - 0 > STEP_AMOUNT) ∧
      canSitDown { fixtureEnv with cam := ⟨⟨0, 0, 1⟩, ⟨0, 0, 0⟩⟩ } initState .Driver 0 =
        (false, { initState with stance := .WalkingToFinalDestination, finalDest := CameraPosition.Driver })) ∧
    (¬ ((camRead fixtureEnv).position.z - 0 > STEP_AMOUNT) ∧
      canSitDown fixtureEnv initState .Driver 0 = (true, initState)) :=
  ⟨⟨by norm_num [camRead, fixtureEnv, STEP_AMOUNT],
    (canSitDown_walkback_c4 { fixtureEnv with cam := ⟨⟨0, 0, 1⟩, ⟨0, 0, 0⟩⟩ } initState .Driver 0).1
      (by norm_num [camRead, fixtureEnv, STEP_AMOUNT])⟩,
   ⟨by norm_num [camRead, fixtureEnv, zeroCam, STEP_AMOUNT],
    (canSitDown_walkback_c4 fixtureEnv initState .Driver 0).2
      (by norm_num [camRead, fixtureEnv, zeroCam, STEP_AMOUNT])⟩⟩

theorem planPath_ne_nil : ∀ c d : CameraPosition, planPath c d ≠ [] := by decide

/-- C5: `OnRequestMove`, when it accepts a request, enqueues exactly the
waypoint list computed by the path planner from the pair (current position,
destination) — the same list every time — and starts its first leg; from
`SofaLie` toward `Driver` that list is `[SofaSit1, Standing, Driver]`. -/
theorem onRequestMove_plans_path_c5 (e : Env) (s : State) (dest : CameraPosition)
    (h1 : s.pending = []) (h2 : isAnimating s = false) (h3 : stanceIsAnimating s = false)
    (h4 : ¬ s.current = dest) :
    (∃ next rest, planPath s.current dest = next :: rest ∧
      onRequestMove e dest s = moveTo e next { s with pending := rest }) ∧
    planPath .SofaLie .Driver = [.SofaSit1, .Standing, .Driver] := by
  constructor
  · obtain ⟨next, rest, hplan⟩ : ∃ n r, planPath s.current dest = n :: r := by
      cases hp : planPath s.current dest with
      | nil => exact absurd hp (planPath_ne_nil _ _)
      | cons n r => exact ⟨n, r, rfl⟩
    refine ⟨next, rest, hplan, ?_⟩
    have hpm : hasPendingMoves s = false := by simp [hasPendingMoves, h1]
    simp only [onRequestMove, hpm, h2, h3, Bool.or_self, Bool.or_false, Bool.false_or,
      if_false, hplan]
    rw [if_neg h4]
    simp
  · decide

/-- Witness for C5 from the sofa-lie start. -/
theorem onRequestMove_plans_path_c5_witness :
    (({ initState with current := CameraPosition.SofaLie } : State).pending = [] ∧
      isAnimating { initState with current := CameraPosition.SofaLie } = false ∧
      stanceIsAnimating { initState with current := CameraPosition.SofaLie } = false ∧
      ¬ ({ initState with current := CameraPosition.SofaLie } : State).current =
        CameraPosition.Driver) ∧
    ((∃ next rest,
        planPath ({ initState with current := CameraPosition.SofaLie } : State).current
          CameraPosition.Driver = next :: rest ∧
        onRequestMove fixtureEnv CameraPosition.Driver
            { initState with current := CameraPosition.SofaLie } =
          moveTo fixtureEnv next
            { { initState with current := CameraPosition.SofaLie } with pending := rest }) ∧
      planPath .SofaLie .Driver = [.SofaSit1, .Standing, .Driver]) :=
  ⟨⟨rfl, rfl, rfl, by decide⟩,
   onRequestMove_plans_path_c5 fixtureEnv { initState with current := CameraPosition.SofaLie }
     CameraPosition.Driver rfl rfl rfl (by decide)⟩

theorem canSitDown_active (e : Env) (s : State) (t : CameraPosition) (z : ℚ) :
    (canSitDown e s t z).2.active = s.active ∧
    (canSitDown e s t z).2.stanceActive = s.stanceActive := by
  unfold canSitDown
  dsimp only
  split <;> exact ⟨rfl, rfl⟩

theorem triggerStandUp_active (e : Env) (s : State) :
    (triggerStandUp e s).active = s.active := by
  unfold triggerStandUp
  dsimp only
  split
  · rfl
  · split <;> rfl

theorem triggerStandDown_active (e : Env) (s : State) :
    (triggerStandDown e s).active = s.active := by
  unfold triggerStandDown
  dsimp only
  split
  · rfl
  · split <;> rfl

theorem triggerWalkStepTowards_active (e : Env) (c : CurrentCameraState) (f : Bool)
    (s : State) : (triggerWalkStepTowards e c f s).active = s.active := by
  unfold triggerWalkStepTowards
  dsimp only
  repeat' first
  | rfl
  | split

theorem isAnimating_congr {s s' : State} (h : s'.active = s.active) :
    isAnimating s' = isAnimating s := by
  unfold isAnimating
  rw [h]

theorem stanceIsAnimating_congr {s s' : State} (h : s'.stanceActive = s.stanceActive) :
    stanceIsAnimating s' = stanceIsAnimating s := by
  unfold stanceIsAnimating
  rw [h]

theorem moveNormal_stanceAnim (e : Env) (t : CameraPosition) (s : State)
    (h : stanceIsAnimating s = false) : stanceIsAnimating (moveNormal e t s) = false := by
  unfold moveNormal
  dsimp only
  split
  · refine Eq.trans (stanceIsAnimating_congr ?_) h
    dsimp only
    split <;> rfl
  · split
    · rfl
    · exact h

theorem atMostOne_of_stance_false {s : State} (h : stanceIsAnimating s = false) :
    AtMostOnePlaying s := by
  unfold AtMostOnePlaying
  rw [h, Bool.and_false]

theorem atMostOne_of_major_false {s : State} (h : isAnimating s = false) :
    AtMostOnePlaying s := by
  unfold AtMostOnePlaying
  rw [h, Bool.false_and]

theorem moveNormal_inv (e : Env) (t : CameraPosition) (s : State)
    (h : stanceIsAnimating s = false) : AtMostOnePlaying (moveNormal e t s) :=
  atMostOne_of_stance_false (moveNormal_stanceAnim e t s h)

theorem canSitDown_snd_stanceActive (e : Env) (s : State) (t : CameraPosition) (z : ℚ)
    (pr : Bool × State) (h : canSitDown e s t z = pr) :
    pr.2.stanceActive = s.stanceActive ∧ pr.2.active = s.active := by
  subst h
  exact ⟨(canSitDown_active e s t z).2, (canSitDown_active e s t z).1⟩

theorem moveTo_stance_busy (e : Env) (t : CameraPosition) (s : State)
    (h : stanceIsAnimating s = true) : moveTo e t s = s := by
  unfold moveTo
  rw [h]
  simp

theorem moveTo_major_busy (e : Env) (t : CameraPosition) (s : State)
    (h : isAnimating s = true) : moveTo e t s = s := by
  unfold moveTo
  rw [h]
  simp

theorem moveTo_inv (e : Env) (t : CameraPosition) (s : State)
    (h : stanceIsAnimating s = false) : AtMostOnePlaying (moveTo e t s) := by
  unfold moveTo
  dsimp only
  split
  · exact atMostOne_of_stance_false h
  · next hguard =>
    have hmaj : isAnimating s = false := by
      have h2 : (isAnimating s || stanceIsAnimating s) = false :=
        Bool.eq_false_iff.mpr hguard
      exact (Bool.or_eq_false_iff.mp h2).1
    split
    · exact atMostOne_of_stance_false h
    · split
      · exact atMostOne_of_stance_false h
      · split
        · split
          · -- stance not the base Standing: queue then possibly trigger
            split
            · exact atMostOne_of_major_false
                (Eq.trans (isAnimating_congr (triggerStandUp_active _ _)) hmaj)
            · split
              · exact atMostOne_of_major_false
                  (Eq.trans (isAnimating_congr (triggerStandDown_active _ _)) hmaj)
              · exact atMostOne_of_stance_false h
          · -- base stance: seat/sofa walk gating
            split
            · split
              · exact moveNormal_inv e t _ h
              · split
                · next heq =>
                  exact moveNormal_inv e t _
                    (Eq.trans (stanceIsAnimating_congr (canSitDown_snd_stanceActive
                      e _ t _ _ heq).1) h)
                · next heq =>
                  exact atMostOne_of_stance_false
                    (Eq.trans (stanceIsAnimating_congr (canSitDown_snd_stanceActive
                      e _ t _ _ heq).1) h)
            · split
              · next heq =>
                exact moveNormal_inv e t _
                  (Eq.trans (stanceIsAnimating_congr (canSitDown_snd_stanceActive
                    e _ t _ _ heq).1) h)
              · next heq =>
                exact atMostOne_of_stance_false
                  (Eq.trans (stanceIsAnimating_congr (canSitDown_snd_stanceActive
                    e _ t _ _ heq).1) h)
        · exact moveNormal_inv e t s h

theorem standingStanceChecks_active (e : Env) (c : CurrentCameraState) (d : ℕ) (s : State) :
    (standingStanceChecks e c d s).active = s.active := by
  unfold standingStanceChecks
  dsimp only
  repeat' first
  | rfl
  | split

theorem stanceCaseStanding_active (e : Env) (c : CurrentCameraState) (d : ℕ) (s : State) :
    (stanceCaseStanding e c d s).active = s.active := by
  unfold stanceCaseStanding
  dsimp only
  repeat' first
  | rfl
  | exact standingStanceChecks_active _ _ _ _
  | split

theorem stanceMachine_inv (e : Env) (c : CurrentCameraState) (d : ℕ) (s : State)
    (hmaj : isAnimating s = false) (hst : stanceIsAnimating s = false) :
    AtMostOnePlaying (stanceMachine e c d s) := by
  unfold stanceMachine
  dsimp only
  split
  · exact atMostOne_of_major_false
      (Eq.trans (isAnimating_congr (stanceCaseStanding_active e c d s)) hmaj)
  · split
    · split
      · exact atMostOne_of_major_false
          (Eq.trans (isAnimating_congr (triggerStandUp_active _ _)) hmaj)
      · exact atMostOne_of_major_false hmaj
    · exact atMostOne_of_major_false hmaj
  · split
    · split
      · exact atMostOne_of_major_false
          (Eq.trans (isAnimating_congr (triggerStandDown_active _ _)) hmaj)
      · exact atMostOne_of_major_false hmaj
    · exact atMostOne_of_major_false hmaj
  · exact atMostOne_of_major_false hmaj
  · split
    · exact moveTo_inv _ _ _ hst
    · exact atMostOne_of_major_false
        (Eq.trans (isAnimating_congr (triggerWalkStepTowards_active _ _ _ _)) hmaj)

theorem stanceUpdate_inv (e : Env) (c : CurrentCameraState) (s : State)
    (hmaj : isAnimating s = false) : AtMostOnePlaying (stanceUpdate e c s) := by
  unfold stanceUpdate
  dsimp only
  split
  · exact atMostOne_of_major_false hmaj
  · split
    · next q heq =>
      split
      · split
        · exact atMostOne_of_major_false hmaj
        · split
          · exact atMostOne_of_major_false hmaj
          · exact atMostOne_of_major_false hmaj
      · next hnp =>
        refine stanceMachine_inv e c _ _ hmaj ?_
        show stanceIsAnimating { s with stanceLastSim := e.simTime } = false
        unfold stanceIsAnimating
        dsimp only
        rw [show s.stanceActive = some q from heq]
        exact Bool.eq_false_iff.mpr hnp
    · next heq =>
      refine stanceMachine_inv e c _ _ hmaj ?_
      show stanceIsAnimating { s with stanceLastSim := e.simTime } = false
      unfold stanceIsAnimating
      dsimp only
      rw [show s.stanceActive = none from heq]

theorem settingsStep_inv (s : State) (h : AtMostOnePlaying s) :
    AtMostOnePlaying (settingsStep s) := by
  unfold settingsStep
  repeat' first
  | exact h
  | split

theorem majorFinished_inv (e : Env) (s : State) (hstance : stanceIsAnimating s = false) :
    AtMostOnePlaying (majorFinished e s) := by
  unfold majorFinished
  dsimp only
  repeat' first
  | exact moveTo_inv _ _ _ rfl
  | exact moveTo_inv _ _ _ hstance
  | exact atMostOne_of_major_false rfl
  | split

theorem tickMain_inv (e : Env) (s : State) (h : AtMostOnePlaying s) :
    AtMostOnePlaying (tickMain e s) := by
  unfold tickMain
  dsimp only
  split
  · next hcond =>
    have hst : stanceIsAnimating s = false := by
      rcases Bool.and_eq_true_iff.mp hcond with ⟨_, h2⟩
      rcases Bool.and_eq_true_iff.mp h2 with ⟨h3, _⟩
      rcases Bool.and_eq_true_iff.mp h3 with ⟨_, h4⟩
      simpa using h4
    split
    · exact moveTo_inv _ _ _ hst
    · exact h
  · split
    · next q heq =>
      split
      · next hplay =>
        have hmaj : isAnimating s = true := by
          unfold isAnimating
          rw [heq]
          exact hplay
        have hst : stanceIsAnimating s = false := by
          have h2 := h
          unfold AtMostOnePlaying at h2
          rw [hmaj, Bool.true_and] at h2
          exact h2
        split
        · exact atMostOne_of_stance_false hst
        · exact majorFinished_inv _ _ hst
      · next hnp =>
        split
        · refine stanceUpdate_inv _ _ _ ?_
          unfold isAnimating
          rw [heq]
          exact Bool.eq_false_iff.mpr hnp
        · exact h
    · next heq =>
      split
      · refine stanceUpdate_inv _ _ _ ?_
        unfold isAnimating
        rw [heq]
      · exact h

theorem tick_inv (e : Env) (s : State) (h : AtMostOnePlaying s) :
    AtMostOnePlaying (tick e s) := by
  unfold tick
  split
  · exact h
  · exact tickMain_inv _ _ (settingsStep_inv _ h)

theorem onRequestMove_inv (e : Env) (d : CameraPosition) (s : State)
    (h : AtMostOnePlaying s) : AtMostOnePlaying (onRequestMove e d s) := by
  unfold onRequestMove
  split
  · exact h
  · next hguard =>
    have hst : stanceIsAnimating s = false := by
      have h2 : (hasPendingMoves s || isAnimating s || stanceIsAnimating s) = false :=
        Bool.eq_false_iff.mpr hguard
      exact (Bool.or_eq_false_iff.mp h2).2
    split
    · exact h
    · split
      · exact moveTo_inv _ _ _ hst
      · exact h

theorem reachable_atMostOne (s : State) (h : Reachable s) : AtMostOnePlaying s := by
  unfold Reachable at h
  induction h with
  | refl => rfl
  | tail _ hstep ih =>
    rcases hstep with ⟨e, rfl⟩ | ⟨e, d, rfl⟩ | rfl
    · exact tick_inv _ _ ih
    · exact onRequestMove_inv _ _ _ ih
    · exact ih

/-- C6: in every reachable state of the per-tick loop, the major-transition
layer and the stance layer are never both playing; a `MoveTo` issued while
the stance layer is animating is refused unchanged; and after any tick, if
the stance layer is playing then the major layer is not (the stance layer
only ends up playing on ticks where no major sequence is). -/
theorem single_active_sequence_c6 (s : State) (hr : Reachable s) :
    AtMostOnePlaying s ∧
    (∀ (e : Env) (t : CameraPosition), stanceIsAnimating s = true → moveTo e t s = s) ∧
    (∀ e : Env, stanceIsAnimating (tick e s) = true → isAnimating (tick e s) = false) := by
  refine ⟨reachable_atMostOne s hr, fun e t h => moveTo_stance_busy e t s h, fun e hst => ?_⟩
  have h2 := tick_inv e s (reachable_atMostOne s hr)
  unfold AtMostOnePlaying at h2
  rw [hst, Bool.and_true] at h2
  exact h2

/-- Witness for C6 at the initial (reachable) state. -/
theorem single_active_sequence_c6_witness :
    Reachable initState ∧
    (AtMostOnePlaying initState ∧
      (∀ (e : Env) (t : CameraPosition),
        stanceIsAnimating initState = true → moveTo e t initState = initState) ∧
      (∀ e : Env, stanceIsAnimating (tick e initState) = true →
        isAnimating (tick e initState) = false)) :=
  ⟨Relation.ReflTransGen.refl, single_active_sequence_c6 initState Relation.ReflTransGen.refl⟩

theorem stanceUpdate_inzone_step (e : Env) (s : State)
    (hc : crouchZoneTick e)
    (hstance : s.stance = .Standing) (hseq : s.stanceActive = none)
    (hlt : s.tCrouch + (e.simTime - s.stanceLastSim) < HOLD_TIME_MS) :
    stanceUpdate e (camRead e) s =
      { s with
        stanceLastSim := e.simTime
        tStandup := 0
        tStanddown := 0
        hasTakenFirstStep := false
        tCrouch := s.tCrouch + (e.simTime - s.stanceLastSim)
        tTiptoe := 0 } := by
  obtain ⟨hcore, hkey, hpitch⟩ := hc
  simp [stanceUpdate, stanceMachine, stanceCaseStanding, standingStanceChecks,
    stanceIsAnimating, camRead, hcore, hkey, hseq, hstance, hpitch, not_le.mpr hlt]

theorem runStance_inzone (envs : List Env) (s : State)
    (hc : ∀ e ∈ envs, crouchZoneTick e)
    (hstance : s.stance = .Standing) (hseq : s.stanceActive = none)
    (hlt : s.tCrouch + sumDeltas s.stanceLastSim envs < HOLD_TIME_MS) :
    (runStance s envs).stance = .Standing ∧
    (runStance s envs).stanceActive = none ∧
    (runStance s envs).tCrouch = s.tCrouch + sumDeltas s.stanceLastSim envs := by
  induction envs generalizing s with
  | nil => exact ⟨hstance, hseq, by simp [runStance, sumDeltas]⟩
  | cons e es ih =>
    have hsum : sumDeltas s.stanceLastSim (e :: es) =
        (e.simTime - s.stanceLastSim) + sumDeltas e.simTime es := rfl
    have hstep := stanceUpdate_inzone_step e s (hc e (List.mem_cons_self e es))
      hstance hseq (by rw [hsum] at hlt; omega)
    have hrun : runStance s (e :: es) = runStance (stanceUpdate e (camRead e) s) es := rfl
    rw [hrun, hstep]
    have hrec := ih { s with stanceLastSim := e.simTime, tStandup := 0, tStanddown := 0, hasTakenFirstStep := false, tCrouch := s.tCrouch + (e.simTime - s.stanceLastSim), tTiptoe := 0 }
      (fun e' he' => hc e' (List.mem_cons_of_mem e he')) hstance hseq
      (by
        show s.tCrouch + (e.simTime - s.stanceLastSim) + sumDeltas e.simTime es < HOLD_TIME_MS
        rw [hsum] at hlt
        omega)
    refine ⟨hrec.1, hrec.2.1, ?_⟩
    rw [hrec.2.2, hsum]
    show s.tCrouch + (e.simTime - s.stanceLastSim) + sumDeltas e.simTime es = _
    omega

theorem stanceUpdate_trigger_step (e : Env) (s : State) (q : AnimationSequence)
    (hc : crouchZoneTick e)
    (hstance : s.stance = .Standing) (hseq : s.stanceActive = none)
    (hge : HOLD_TIME_MS ≤ s.tCrouch + (e.simTime - s.stanceLastSim))
    (hfac : e.crouchFactory (camRead e) (getGazeDirection (camRead e).rotation.x) = some q) :
    (stanceUpdate e (camRead e) s).stance = .InTransition ∧
    (stanceUpdate e (camRead e) s).transitionTo = .Crouching ∧
    stanceIsAnimating (stanceUpdate e (camRead e) s) = true ∧
    (stanceUpdate e (camRead e) s).tCrouch = 0 := by
  obtain ⟨hcore, hkey, hpitch⟩ := hc
  simp only [camRead] at hfac
  simp [stanceUpdate, stanceMachine, stanceCaseStanding, standingStanceChecks,
    stanceIsAnimating, camRead, hcore, hkey, hseq, hstance, hpitch, hge, hfac,
    AnimationSequence.Start, AnimationSequence.IsPlaying]

theorem stanceUpdate_leave_zone_step (e : Env) (s : State)
    (hcore : e.coreReady = true) (hkey : e.walkKey = false)
    (hstance : s.stance = .Standing) (hseq : s.stanceActive = none)
    (hout : ¬ e.cam.rotation.y < CROUCH_DOWN_ANGLE) :
    (stanceUpdate e (camRead e) s).tCrouch = 0 := by
  by_cases htip : TIPTOE_UP_ANGLE < e.cam.rotation.y
  · by_cases hhold : HOLD_TIME_MS ≤ s.tTiptoe + (e.simTime - s.stanceLastSim)
    · cases hfac : e.tiptoeFactory { position := e.cam.position, rotation := { x := e.cam.rotation.x, y := e.cam.rotation.y, z := 0 } } (getGazeDirection e.cam.rotation.x) with
      | none =>
        simp [stanceUpdate, stanceMachine, stanceCaseStanding, standingStanceChecks,
          stanceIsAnimating, camRead, hcore, hkey, hseq, hstance, hout, htip, hhold, hfac]
      | some q =>
        simp [stanceUpdate, stanceMachine, stanceCaseStanding, standingStanceChecks,
          stanceIsAnimating, camRead, hcore, hkey, hseq, hstance, hout, htip, hhold, hfac]
    · simp [stanceUpdate, stanceMachine, stanceCaseStanding, standingStanceChecks,
        stanceIsAnimating, camRead, hcore, hkey, hseq, hstance, hout, htip, hhold]
  · simp [stanceUpdate, stanceMachine, stanceCaseStanding, standingStanceChecks,
      stanceIsAnimating, camRead, hcore, hkey, hseq, hstance, hout, htip]

/-- C7: while the stance is `Standing` with no stance sequence and the walk
key up, (a) ticks that keep the pitch in the crouch zone accumulate their
deltas into the zone timer and never trigger while the accumulated time
stays strictly below the hold time; (b) on a tick where the accumulated time
reaches the hold time, the crouch-down sequence starts (stance
`InTransition` toward `Crouching`, sequence playing, timer rearmed); and
(c) any tick with the pitch outside the crouch zone resets that zone's
accumulated timer to zero. -/
theorem stance_hold_debounce_c7 :
    (∀ (envs : List Env) (s : State), (∀ e ∈ envs, crouchZoneTick e) →
      s.stance = .Standing → s.stanceActive = none →
      s.tCrouch + sumDeltas s.stanceLastSim envs < HOLD_TIME_MS →
      (runStance s envs).stance = .Standing ∧
      (runStance s envs).stanceActive = none ∧
      (runStance s envs).tCrouch = s.tCrouch + sumDeltas s.stanceLastSim envs) ∧
    (∀ (e : Env) (s : State) (q : AnimationSequence), crouchZoneTick e →
      s.stance = .Standing → s.stanceActive = none →
      HOLD_TIME_MS ≤ s.tCrouch + (e.simTime - s.stanceLastSim) →
      e.crouchFactory (camRead e) (getGazeDirection (camRead e).rotation.x) = some q →
      (stanceUpdate e (camRead e) s).stance = .InTransition ∧
      (stanceUpdate e (camRead e) s).transitionTo = .Crouching ∧
      stanceIsAnimating (stanceUpdate e (camRead e) s) = true ∧
      (stanceUpdate e (camRead e) s).tCrouch = 0) ∧
    (∀ (e : Env) (s : State), e.coreReady = true → e.walkKey = false →
      s.stance = .Standing → s.stanceActive = none →
      ¬ e.cam.rotation.y < CROUCH_DOWN_ANGLE →
      (stanceUpdate e (camRead e) s).tCrouch = 0) :=
  ⟨runStance_inzone, stanceUpdate_trigger_step, stanceUpdate_leave_zone_step⟩

/-- Witness for C7: a 500000-unit in-zone tick accumulates without
triggering; a 1000000-unit hold triggers the crouch sequence; a neutral-pitch
tick resets the timer. -/
theorem stance_hold_debounce_c7_witness :
    ((∀ e ∈ [crouchEnv 500000], crouchZoneTick e) ∧
      initState.stance = .Standing ∧ initState.stanceActive = none ∧
      initState.tCrouch + sumDeltas initState.stanceLastSim [crouchEnv 500000] < HOLD_TIME_MS ∧
      ((runStance initState [crouchEnv 500000]).stance = .Standing ∧
        (runStance initState [crouchEnv 500000]).stanceActive = none ∧
        (runStance initState [crouchEnv 500000]).tCrouch =
          initState.tCrouch + sumDeltas initState.stanceLastSim [crouchEnv 500000])) ∧
    (crouchZoneTick (crouchEnv 1000000) ∧
      HOLD_TIME_MS ≤ initState.tCrouch + ((crouchEnv 1000000).simTime - initState.stanceLastSim) ∧
      (crouchEnv 1000000).crouchFactory (camRead (crouchEnv 1000000))
          (getGazeDirection (camRead (crouchEnv 1000000)).rotation.x) =
        some { fixtureSeq 1000 with m_initial_camera_state := ⟨⟨0, 0, 0⟩, ⟨0, -1, 0⟩⟩ } ∧
      ((stanceUpdate (crouchEnv 1000000) (camRead (crouchEnv 1000000)) initState).stance =
          .InTransition ∧
        (stanceUpdate (crouchEnv 1000000) (camRead (crouchEnv 1000000)) initState).transitionTo =
          .Crouching ∧
        stanceIsAnimating
          (stanceUpdate (crouchEnv 1000000) (camRead (crouchEnv 1000000)) initState) = true ∧
        (stanceUpdate (crouchEnv 1000000) (camRead (crouchEnv 1000000)) initState).tCrouch = 0)) ∧
    (¬ fixtureEnv.cam.rotation.y < CROUCH_DOWN_ANGLE ∧
      (stanceUpdate fixtureEnv (camRead fixtureEnv) initState).tCrouch = 0) := by
  have hzone : ∀ t : ℕ, crouchZoneTick (crouchEnv t) := fun t =>
    ⟨rfl, rfl, by norm_num [crouchEnv, fixtureEnv, zeroCam, CROUCH_DOWN_ANGLE]⟩
  have hzones : ∀ e ∈ [crouchEnv 500000], crouchZoneTick e := by
    intro e he
    rcases List.mem_singleton.mp he with rfl
    exact hzone 500000
  have hout : ¬ fixtureEnv.cam.rotation.y < CROUCH_DOWN_ANGLE := by
    norm_num [fixtureEnv, zeroCam, CROUCH_DOWN_ANGLE]
  refine ⟨⟨hzones, rfl, rfl, ?_, ?_⟩, ⟨hzone 1000000, ?_, ?_, ?_⟩, ⟨hout, ?_⟩⟩
  · decide
  · exact stance_hold_debounce_c7.1 [crouchEnv 500000] initState hzones rfl rfl (by decide)
  · decide
  · rfl
  · exact stance_hold_debounce_c7.2.1 (crouchEnv 1000000) initState
      { fixtureSeq 1000 with m_initial_camera_state := ⟨⟨0, 0, 0⟩, ⟨0, -1, 0⟩⟩ }
      (hzone 1000000) rfl rfl (by decide) rfl
  · exact stance_hold_debounce_c7.2.2 fixtureEnv initState rfl rfl rfl rfl hout
